import Mathlib

/-!
Verification development for the AIVA Detect System repository.

The repository is a Telegram bot (src/bot.py, src/config.py, src/database/)
that watches chat messages for identifier strings and alerts when the same
identifier is seen again.  This file gives a shallow embedding of the
decision logic: strings are lists of characters, the SQLite store is an
explicit state record, and the asynchronous handlers become pure state
transition functions.  External I/O (Telegram replies, admin notifications)
is modelled only through the effect flags the claims talk about.
-/

namespace AIVA

/-! ### Character-level helpers (ASCII fragment of the Python str methods) -/

/-- Python str.isdigit for an ASCII character (code 48..57). -/
def pyIsDigit (c : Char) : Bool := 48 ≤ c.toNat && c.toNat ≤ 57

/-- ASCII upper-case letter (code 65..90). -/
def pyIsUpper (c : Char) : Bool := 65 ≤ c.toNat && c.toNat ≤ 90

/-- ASCII lower-case letter (code 97..122). -/
def pyIsLower (c : Char) : Bool := 97 ≤ c.toNat && c.toNat ≤ 122

/-- Python str.isalpha for one ASCII character. -/
def pyIsAlpha (c : Char) : Bool := pyIsUpper c || pyIsLower c

/-- Python str.isalnum for one ASCII character. -/
def pyIsAlnum (c : Char) : Bool := pyIsAlpha c || pyIsDigit c

/-- Python whitespace (the characters matched by str.split, str.strip and
the regex class backslash-s, ASCII fragment). -/
def pyIsSpace (c : Char) : Bool :=
  c == ' ' || c == '\t' || c == '\n' || c == '\r' || c == '\x0b' || c == '\x0c'

/-- Python str.lower for an ASCII character. -/
def pyLower (c : Char) : Char :=
  if pyIsUpper c then Char.ofNat (c.toNat + 32) else c

/-- Python s.isdigit() on a whole string: non-empty and all digits. -/
def pyIsDigitStr (cs : List Char) : Bool := !cs.isEmpty && cs.all pyIsDigit

/-- Python s.isalpha() on a whole string: non-empty and all alphabetic. -/
def pyIsAlphaStr (cs : List Char) : Bool := !cs.isEmpty && cs.all pyIsAlpha

/-- Python s.strip(): drop leading and trailing whitespace. -/
def pyStrip (cs : List Char) : List Char :=
  ((cs.dropWhile pyIsSpace).reverse.dropWhile pyIsSpace).reverse

/-! ### The identifier classifier (bot.py, determine_identifier_type) -/

/-- The classification tags returned by determine_identifier_type. -/
inductive IdType where
  | email
  | phone
  | account_number
  | large_number
  | numeric
  | reference_code
  | text
  | uuid
  | custom
  | unknown
deriving DecidableEq, Repr

/-- The join(identifier.split()) step of determine_identifier_type:
remove every whitespace character. -/
def cleanOf (identifier : List Char) : List Char :=
  identifier.filter (fun c => !pyIsSpace c)

/-- Python clean.split(at-sign)[-1]: the suffix after the last at-sign
(the whole string when there is none). -/
def afterLastAt (cs : List Char) : List Char :=
  (cs.reverse.takeWhile (fun c => c != '@')).reverse

/-- The email test of determine_identifier_type: contains an at-sign and the
part after the last at-sign contains a dot. -/
def emailCond (clean : List Char) : Bool :=
  clean.contains '@' && (afterLastAt clean).contains '.'

/-- A lower-case hexadecimal digit, as in the character class 0-9a-f of the
UUID regex in determine_identifier_type. -/
def isLowerHex (c : Char) : Bool := pyIsDigit c || (97 ≤ c.toNat && c.toNat ≤ 102)

/-- The UUID regex of determine_identifier_type, anchored at both ends:
8-4-4-4-12 lower-case hexadecimal groups separated by hyphens (the input is
lower-cased before matching).  Positional transcription of the pattern. -/
def uuidMatch (cs : List Char) : Bool :=
  decide (cs.length = 36) &&
  (cs.take 8).all isLowerHex &&
  (cs.getD 8 ' ' == '-') &&
  ((cs.drop 9).take 4).all isLowerHex &&
  (cs.getD 13 ' ' == '-') &&
  ((cs.drop 14).take 4).all isLowerHex &&
  (cs.getD 18 ' ' == '-') &&
  ((cs.drop 19).take 4).all isLowerHex &&
  (cs.getD 23 ' ' == '-') &&
  (cs.drop 24).all isLowerHex

/-- bot.py determine_identifier_type: classify an identifier string.
The branch order follows the source: empty, email, all-digits (with the
length sub-cases), reference-code / text, UUID, custom. -/
def determine_identifier_type (identifier : List Char) : IdType :=
  let clean := cleanOf identifier
  if clean.isEmpty then .unknown
  else if emailCond clean then .email
  else if pyIsDigitStr clean then
    if 8 ≤ clean.length ∧ clean.length ≤ 15 then .phone
    else if 16 ≤ clean.length ∧ clean.length ≤ 20 then .account_number
    else if 20 < clean.length then .large_number
    else .numeric
  else if clean.any pyIsAlnum && (clean.any pyIsAlpha && clean.any pyIsDigit) then
    .reference_code
  else if clean.any pyIsAlnum && pyIsAlphaStr clean then .text
  else if uuidMatch (clean.map pyLower) then .uuid
  else .custom

/-! ### Data model (src/database/models.py) -/

/-- One row of the identifier_records table.  The SQLAlchemy integer
primary key becomes a Nat, nullable columns become Option, and the
datetime columns become an abstract logical timestamp. -/
structure IdentifierRecord where
  id : Nat
  identifier : List Char
  identifier_type : IdType
  group_id : Option Nat
  message_id : Option Nat
  user_id : Option Int
  is_duplicate : Bool
  created_at : Nat
  updated_at : Nat
deriving DecidableEq, Repr

/-- One row of the duplicate_alerts table. -/
structure DuplicateAlert where
  id : Nat
  identifier : List Char
  original_id : Nat
  status : List Char
  created_at : Nat
deriving DecidableEq, Repr

/-- The persistent store: both tables, the auto-increment counters for the
two primary keys, and a logical clock supplying the datetime defaults. -/
structure DB where
  records : List IdentifierRecord
  alerts : List DuplicateAlert
  nextId : Nat
  nextAlertId : Nat
  clock : Nat
deriving DecidableEq, Repr

/-- The freshly created database. -/
def emptyDB : DB := { records := [], alerts := [], nextId := 1, nextAlertId := 1, clock := 0 }

/-! ### Store operations -/

/-- The query used by add_identifier and handle_message:
filter(identifier == value, is_duplicate == False).first(). -/
def find_active (db : DB) (ident : List Char) : Option IdentifierRecord :=
  db.records.find? (fun r => r.identifier == ident && !r.is_duplicate)

/-- Outcome of the add command, as signalled back to the chat. -/
inductive AddResult where
  | emptyIdentifier
  | alreadyMonitored
  | added (r : IdentifierRecord)
deriving DecidableEq, Repr

/-- The row built by add_identifier: is_duplicate False, user_id from the
submitting user, provenance columns left at their NULL defaults. -/
def newRecord (db : DB) (identifier : List Char) (tp : IdType) (u : Int) : IdentifierRecord :=
  { id := db.nextId, identifier := identifier, identifier_type := tp,
    group_id := none, message_id := none, user_id := some u,
    is_duplicate := false, created_at := db.clock, updated_at := db.clock }

/-- bot.py add_identifier (the /add command): join the arguments, strip,
reject the empty string, classify, and insert unless an active record with
the same value already exists.  The args parameter stands for the joined
argument string before the strip. -/
def add_identifier (db : DB) (args : List Char) (u : Int) : DB × AddResult :=
  let identifier := pyStrip args
  if identifier.isEmpty then (db, .emptyIdentifier)
  else
    let identifier_type := determine_identifier_type identifier
    match find_active db identifier with
    | some _ => (db, .alreadyMonitored)
    | none =>
      let r := newRecord db identifier identifier_type u
      ({ db with records := db.records ++ [r],
                 nextId := db.nextId + 1, clock := db.clock + 1 }, .added r)

/-- bot.py remove_identifier (admin command): delete the row fetched by
primary key, a no-op when the id is absent.  eraseP removes the first (and,
with unique primary keys, only) row with that id. -/
def remove_identifier (db : DB) (rid : Nat) : DB :=
  { db with records := db.records.eraseP (fun r => r.id == rid) }

/-! ### Duplicate detector (bot.py, handle_duplicate and handle_message) -/

/-- The storage error that can occur while persisting a DuplicateAlert. -/
inductive DetectError where
  | alertWriteFailed
deriving DecidableEq, Repr

/-- The alert row built by handle_duplicate: the detected identifier, a
reference to the matched original record, status pending, timestamp from
the store clock. -/
def mkAlert (db : DB) (identifier : List Char) (originalId : Nat) : DuplicateAlert :=
  { id := db.nextAlertId, identifier := identifier, original_id := originalId,
    status := "pending".data, created_at := db.clock }

/-- The inner try block of handle_duplicate: create the DuplicateAlert and
commit.  A write failure rolls the nested transaction back (store
unchanged) and re-raises, modelled as the error branch.  The writeOk flag
models whether the underlying database write succeeds. -/
def create_alert (db : DB) (existing : IdentifierRecord) (identifier : List Char)
    (writeOk : Bool) : Except DetectError (DB × DuplicateAlert) :=
  if writeOk then
    let alert := mkAlert db identifier existing.id
    .ok ({ db with alerts := db.alerts ++ [alert],
                   nextAlertId := db.nextAlertId + 1, clock := db.clock + 1 }, alert)
  else .error .alertWriteFailed

/-- Observable effects of one handle_duplicate call: the store afterwards,
the alert row that was committed (if any), and whether the outer except
block ran (it logs the error, replies to the chat and notifies admins). -/
structure DupEffects where
  dbAfter : DB
  alertCreated : Option DuplicateAlert
  errorCaught : Bool
deriving DecidableEq, Repr

/-- bot.py handle_duplicate.  The second component is what the caller
(handle_message) observes: in Python an uncaught exception, here an Except
error.  The source wraps everything in an outer try whose except clause
logs, replies to the chat, notifies admins and returns normally, so no
exception ever escapes to the caller. -/
def handle_duplicate (db : DB) (existing : IdentifierRecord) (identifier : List Char)
    (writeOk : Bool) : DupEffects × Except DetectError Unit :=
  match create_alert db existing identifier writeOk with
  | .ok (db', alert) =>
      ({ dbAfter := db', alertCreated := some alert, errorCaught := false }, .ok ())
  | .error _ =>
      ({ dbAfter := db, alertCreated := none, errorCaught := true }, .ok ())

/-! ### Candidate extraction (bot.py, extract_identifiers) -/

/-- The regex class of separators in extract_identifiers:
whitespace, comma, semicolon, vertical bar. -/
def isSep (c : Char) : Bool := pyIsSpace c || c == ',' || c == ';' || c == '|'

/-- Greedy backslash-S-plus: the maximal run of non-whitespace characters. -/
def takeNonSpace (cs : List Char) : List Char :=
  cs.takeWhile (fun c => !pyIsSpace c)

/-- Match the regex alternative https?://S+ at the head of the list,
returning the length of the match. -/
def matchHttp (cs : List Char) : Option Nat :=
  match cs with
  | 'h' :: 't' :: 't' :: 'p' :: 's' :: ':' :: '/' :: '/' :: r =>
      if (takeNonSpace r).isEmpty then none else some (8 + (takeNonSpace r).length)
  | 'h' :: 't' :: 't' :: 'p' :: ':' :: '/' :: '/' :: r =>
      if (takeNonSpace r).isEmpty then none else some (7 + (takeNonSpace r).length)
  | _ => none

/-- Match the regex alternative www.S+ at the head of the list. -/
def matchWww (cs : List Char) : Option Nat :=
  match cs with
  | 'w' :: 'w' :: 'w' :: '.' :: r =>
      if (takeNonSpace r).isEmpty then none else some (4 + (takeNonSpace r).length)
  | _ => none

/-- One attempt of the URL pattern at the current position, first
alternative first, as re.sub tries them. -/
def matchUrl (cs : List Char) : Option Nat :=
  (matchHttp cs).orElse (fun _ => matchWww cs)

/-- The scanning loop of re.sub with an empty replacement: at each position
try the pattern; on a match skip it and continue after the match, otherwise
keep the character and advance.  The fuel argument (always instantiated
with the length of the list) only makes the recursion structural; every
step consumes at least one character per unit of fuel, so it never runs
out on the instantiation used. -/
def removeUrlsFuel : Nat → List Char → List Char
  | 0, cs => cs
  | _ + 1, [] => []
  | fuel + 1, c :: cs =>
      match matchUrl (c :: cs) with
      | some n => removeUrlsFuel fuel ((c :: cs).drop n)
      | none => c :: removeUrlsFuel fuel cs

/-- re.sub(url-pattern, empty, text) from extract_identifiers. -/
def remove_urls (cs : List Char) : List Char := removeUrlsFuel cs.length cs

/-- The splitting loop of re.split on one-or-more separators: accumulate
the current token, and on a separator emit it and skip the rest of the
separator run.  Boundary separators produce empty tokens exactly as
re.split does.  Fuel as in removeUrlsFuel. -/
def splitSepsFuel : Nat → List Char → List Char → List (List Char)
  | 0, cs, cur => [cur.reverse ++ cs]
  | _ + 1, [], cur => [cur.reverse]
  | fuel + 1, c :: cs, cur =>
      if isSep c then cur.reverse :: splitSepsFuel fuel (cs.dropWhile isSep) []
      else splitSepsFuel fuel cs (c :: cur)

/-- re.split(separator-class-plus, text) from extract_identifiers. -/
def splitSeps (cs : List Char) : List (List Char) := splitSepsFuel cs.length cs []

/-- The order-preserving first-occurrence deduplication at the end of
extract_identifiers (the seen-set comprehension). -/
def dedupFirst {α : Type} [DecidableEq α] (l : List α) : List α :=
  l.foldl (fun acc x => if x ∈ acc then acc else acc ++ [x]) []

/-- bot.py extract_identifiers: remove URLs, take the whole stripped text,
then every separator-delimited part of length at least 6 (after stripping),
and deduplicate preserving order. -/
def extract_identifiers (text : List Char) : List (List Char) :=
  let t := remove_urls text
  let potential := pyStrip t ::
    (splitSeps t).filterMap (fun part =>
      let part := pyStrip part
      if 6 ≤ part.length then some part else none)
  dedupFirst potential

/-! ### Message handling (bot.py, handle_message) -/

/-- The loop body of handle_message for one candidate: skip candidates that
strip to the empty string, look the candidate up among active records, and
on a hit run handle_duplicate and set the found flag.  The state pairs the
store with the found_duplicates flag. -/
def process_candidate (st : DB × Bool) (identifier : List Char) (writeOk : Bool) :
    DB × Bool :=
  if (pyStrip identifier).isEmpty then st
  else
    match find_active st.1 identifier with
    | some existing => ((handle_duplicate st.1 existing identifier writeOk).1.dbAfter, true)
    | none => st

/-- The for loop of handle_message over the extracted candidates.  The oks
list supplies, per candidate, whether the alert write succeeds (missing
entries default to a successful write). -/
def run_candidates : DB × Bool → List (List Char) → List Bool → DB × Bool
  | st, [], _ => st
  | st, c :: cs, oks => run_candidates (process_candidate st c (oks.headD true)) cs oks.tail

/-- bot.py handle_message: strip the text, ignore commands (a leading
slash), extract the candidates and process each one.  Returns the store
and the found_duplicates flag. -/
def handle_message (db : DB) (rawText : List Char) (oks : List Bool) : DB × Bool :=
  let text := pyStrip rawText
  if text.headD ' ' == '/' then (db, false)
  else run_candidates (db, false) (extract_identifiers text) oks

/-! ### Configuration (src/config.py, Settings.admin_ids_list) -/

/-- Python str.split(comma): split at every comma, keeping empty pieces. -/
def splitOnComma : List Char → List (List Char)
  | [] => [[]]
  | c :: rest =>
      if c == ',' then [] :: splitOnComma rest
      else
        match splitOnComma rest with
        | [] => [[c]]
        | g :: gs => (c :: g) :: gs

/-- int() on a digit string. -/
def pyToInt (cs : List Char) : Int :=
  (cs.foldl (fun n c => n * 10 + (c.toNat - 48)) 0 : Nat)

/-- config.py Settings.admin_ids_list: empty setting defaults to [1], a
single number parses alone, otherwise the comma-separated digit entries
are parsed, with [1] again when none survive. -/
def admin_ids_list (ADMIN_IDS : List Char) : List Int :=
  if (pyStrip ADMIN_IDS).isEmpty then [1]
  else if pyIsDigitStr (pyStrip ADMIN_IDS) then [pyToInt (pyStrip ADMIN_IDS)]
  else
    let l := (splitOnComma ADMIN_IDS).filterMap (fun x =>
      if pyIsDigitStr (pyStrip x) then some (pyToInt (pyStrip x)) else none)
    if l.isEmpty then [1] else l

/-! ### Reachable states (the operations of the invariant claim) -/

/-- One operation against the store: the add command, a plain chat message
run through the duplicate detector, or an administrative removal. -/
inductive Op where
  | add (raw : List Char) (user : Int)
  | message (text : List Char) (oks : List Bool)
  | removeRec (rid : Nat)

/-- Apply one operation to the store. -/
def step (db : DB) : Op → DB
  | .add raw u => (add_identifier db raw u).1
  | .message t oks => (handle_message db t oks).1
  | .removeRec rid => remove_identifier db rid

/-- The store reached by a sequence of operations from the fresh database. -/
def run (ops : List Op) : DB := ops.foldl step emptyDB

/-- Number of active records holding a given value. -/
def activeCount (db : DB) (v : List Char) : Nat :=
  db.records.countP (fun r => r.identifier == v && !r.is_duplicate)

/-- The uniqueness contract: at most one active record per value. -/
def ActiveUnique (db : DB) : Prop := ∀ v, activeCount db v ≤ 1

/-! ### Sample store used for concrete instantiations -/

/-- A concrete active record, as created by an add of abc123. -/
def sampleRec : IdentifierRecord :=
  { id := 1, identifier := "abc123".data, identifier_type := .reference_code,
    group_id := none, message_id := none, user_id := some 7,
    is_duplicate := false, created_at := 0, updated_at := 0 }

/-- A concrete store holding just sampleRec. -/
def sampleDB : DB :=
  { records := [sampleRec], alerts := [], nextId := 2, nextAlertId := 1, clock := 5 }

/-! ### Helper lemmas about the detector -/

theorem handle_duplicate_records (db : DB) (r : IdentifierRecord) (c : List Char)
    (ok : Bool) : ((handle_duplicate db r c ok).1.dbAfter).records = db.records := by
  cases ok <;> rfl

theorem handle_duplicate_alerts (db : DB) (r : IdentifierRecord) (c : List Char)
    (ok : Bool) : ((handle_duplicate db r c ok).1.dbAfter).alerts =
      db.alerts ++ (if ok then [mkAlert db c r.id] else []) := by
  cases ok <;> simp [handle_duplicate, create_alert]

theorem process_candidate_records (st : DB × Bool) (c : List Char) (ok : Bool) :
    (process_candidate st c ok).1.records = st.1.records := by
  unfold process_candidate
  split
  · rfl
  · split <;> simp [handle_duplicate_records]

theorem run_candidates_records (cs : List (List Char)) :
    ∀ (oks : List Bool) (st : DB × Bool),
      (run_candidates st cs oks).1.records = st.1.records := by
  induction cs with
  | nil => intro oks st; rfl
  | cons c cs ih =>
      intro oks st
      rw [run_candidates, ih, process_candidate_records]

theorem handle_message_records (db : DB) (text : List Char) (oks : List Bool) :
    (handle_message db text oks).1.records = db.records := by
  simp only [handle_message]
  split
  · rfl
  · exact run_candidates_records _ _ _

theorem process_candidate_alerts (st : DB × Bool) (c : List Char) (ok : Bool) :
    ∃ a, (process_candidate st c ok).1.alerts = st.1.alerts ++ a := by
  unfold process_candidate
  split
  · exact ⟨[], by simp⟩
  · split
    · exact ⟨_, handle_duplicate_alerts ..⟩
    · exact ⟨[], by simp⟩

theorem run_candidates_alerts (cs : List (List Char)) :
    ∀ (oks : List Bool) (st : DB × Bool),
      ∃ a, (run_candidates st cs oks).1.alerts = st.1.alerts ++ a := by
  induction cs with
  | nil => intro oks st; exact ⟨[], by simp [run_candidates]⟩
  | cons c cs ih =>
      intro oks st
      obtain ⟨a1, h1⟩ := process_candidate_alerts st c (oks.headD true)
      obtain ⟨a2, h2⟩ := ih oks.tail (process_candidate st c (oks.headD true))
      refine ⟨a1 ++ a2, ?_⟩
      rw [run_candidates, h2, h1, List.append_assoc]

/-! ### Helper lemmas for the uniqueness invariant -/

theorem activeCount_add (db : DB) (raw : List Char) (u : Int) (v : List Char)
    (h : ActiveUnique db) : activeCount (add_identifier db raw u).1 v ≤ 1 := by
  simp only [add_identifier]
  split
  · exact h v
  · cases hfa : find_active db (pyStrip raw) with
    | some r => simp only [hfa]; exact h v
    | none =>
        simp only [hfa, activeCount, List.countP_append]
        by_cases hv : pyStrip raw = v
        · have hzero : List.countP
              (fun r => r.identifier == v && !r.is_duplicate) db.records = 0 := by
            rw [List.countP_eq_zero]
            intro r hr
            have := List.find?_eq_none.mp hfa r hr
            simpa [hv] using this
          simp [hzero, newRecord, List.countP_cons, hv]
        · have hone : List.countP (fun r => r.identifier == v && !r.is_duplicate)
              [newRecord db (pyStrip raw) (determine_identifier_type (pyStrip raw)) u] = 0 := by
            simp [newRecord, List.countP_cons, hv]
          rw [hone]
          simpa [activeCount] using h v

theorem activeCount_remove (db : DB) (rid : Nat) (v : List Char) :
    activeCount (remove_identifier db rid) v ≤ activeCount db v :=
  List.Sublist.countP_le _ (List.eraseP_sublist _)

theorem step_preserves_unique (db : DB) (op : Op) (h : ActiveUnique db) :
    ActiveUnique (step db op) := by
  cases op with
  | add raw u => exact fun v => activeCount_add db raw u v h
  | message t oks =>
      intro v
      have hr := handle_message_records db t oks
      simp only [step, activeCount, hr]
      exact h v
  | removeRec rid => exact fun v => le_trans (activeCount_remove db rid v) (h v)

theorem emptyDB_unique : ActiveUnique emptyDB := by
  intro v
  simp [activeCount, emptyDB]

/-! ### Theorems for the claims -/

/-- C1 (counterexample): the non-command message-processing path does not
insert a record for a candidate that has no active record.  Starting from
the empty store, the message zzz999xyz has no active record, yet after
handle_message the store still holds no record at all and no detection is
reported. -/
theorem message_path_no_insert_counterexample :
    find_active emptyDB (pyStrip "zzz999xyz".data) = none ∧
    (handle_message emptyDB "zzz999xyz".data []).1.records = [] ∧
    (handle_message emptyDB "zzz999xyz".data []).2 = false :=
  ⟨rfl, rfl, rfl⟩

/-- C1 (amended): the message-processing path never inserts an
IdentifierRecord — it leaves the records table unchanged for every message;
a new record for a fresh candidate is created only by the add command path,
which classifies the stripped candidate and appends exactly one new active
record, reporting it as added. -/
theorem message_path_never_inserts_add_inserts :
    (∀ (db : DB) (text : List Char) (oks : List Bool),
        (handle_message db text oks).1.records = db.records) ∧
    (∀ (db : DB) (raw : List Char) (u : Int),
        (pyStrip raw).isEmpty = false →
        find_active db (pyStrip raw) = none →
        add_identifier db raw u =
          ({ db with
              records := db.records ++
                [newRecord db (pyStrip raw) (determine_identifier_type (pyStrip raw)) u]
              nextId := db.nextId + 1
              clock := db.clock + 1 },
           .added (newRecord db (pyStrip raw)
             (determine_identifier_type (pyStrip raw)) u))) := by
  constructor
  · exact handle_message_records
  · intro db raw u hne hfa
    simp only [add_identifier, hne, hfa]
    rfl

/-- Witness for the amended C1 theorem at a concrete input. -/
theorem message_path_never_inserts_add_inserts_witness :
    add_identifier emptyDB " zzz999xyz ".data 9 =
      ({ emptyDB with
          records := emptyDB.records ++
            [newRecord emptyDB (pyStrip " zzz999xyz ".data)
              (determine_identifier_type (pyStrip " zzz999xyz ".data)) 9]
          nextId := emptyDB.nextId + 1
          clock := emptyDB.clock + 1 },
       .added (newRecord emptyDB (pyStrip " zzz999xyz ".data)
         (determine_identifier_type (pyStrip " zzz999xyz ".data)) 9)) :=
  message_path_never_inserts_add_inserts.2 emptyDB " zzz999xyz ".data 9 rfl rfl

/-- C2: every store state reachable from the fresh database by any sequence
of add, message-detection and remove operations has, for every string
value, at most one IdentifierRecord with is_duplicate false holding that
exact value. -/
theorem active_uniqueness_invariant (ops : List Op) : ActiveUnique (run ops) := by
  suffices h : ∀ db, ActiveUnique db → ActiveUnique (ops.foldl step db) from
    h emptyDB emptyDB_unique
  induction ops with
  | nil => exact fun db h => h
  | cons op ops ih => exact fun db h => ih (step db op) (step_preserves_unique db op h)

/-- C3: detecting a candidate that strips to a non-empty string and whose
exact string has an active record appends exactly one new DuplicateAlert
row (never deduplicated against earlier alerts), with status pending and
original_id referencing the matched record; the records table is untouched
and the found flag is set. -/
theorem duplicate_detection_appends_one_pending_alert
    (db : DB) (found : Bool) (c : List Char) (r : IdentifierRecord)
    (hne : (pyStrip c).isEmpty = false) (hfa : find_active db c = some r) :
    process_candidate (db, found) c true =
      ({ db with alerts := db.alerts ++ [mkAlert db c r.id],
                 nextAlertId := db.nextAlertId + 1, clock := db.clock + 1 }, true) ∧
    (mkAlert db c r.id).status = "pending".data ∧
    (mkAlert db c r.id).original_id = r.id := by
  refine ⟨?_, rfl, rfl⟩
  simp only [process_candidate, hne, hfa]
  rfl

/-- Witness for the C3 theorem at a concrete store. -/
theorem duplicate_detection_appends_one_pending_alert_witness :
    process_candidate (sampleDB, false) "abc123".data true =
      ({ sampleDB with alerts := sampleDB.alerts ++ [mkAlert sampleDB "abc123".data sampleRec.id],
                       nextAlertId := sampleDB.nextAlertId + 1, clock := sampleDB.clock + 1 },
        true) ∧
    (mkAlert sampleDB "abc123".data sampleRec.id).status = "pending".data ∧
    (mkAlert sampleDB "abc123".data sampleRec.id).original_id = sampleRec.id :=
  duplicate_detection_appends_one_pending_alert sampleDB false "abc123".data sampleRec rfl rfl

/-- C6: a detection pass over a message leaves every IdentifierRecord —
in particular any matched original record and all of its fields — exactly
as it was; the only store change is that new DuplicateAlert rows are
appended. -/
theorem duplicate_detection_frame (db : DB) (text : List Char) (oks : List Bool) :
    (handle_message db text oks).1.records = db.records ∧
    ∃ newAlerts, (handle_message db text oks).1.alerts = db.alerts ++ newAlerts := by
  refine ⟨handle_message_records db text oks, ?_⟩
  simp only [handle_message]
  split
  · exact ⟨[], by simp⟩
  · exact run_candidates_alerts _ _ _

/-- C7 (counterexample): when the DuplicateAlert write fails, the caller of
handle_duplicate receives a normal return, not a typed error — the
exception is caught by the outer handler inside handle_duplicate (which
sets the error-caught effect), and no alert is recorded. -/
theorem alert_write_failure_not_propagated_counterexample :
    (handle_duplicate sampleDB sampleRec "abc123".data false).2 = Except.ok () ∧
    (handle_duplicate sampleDB sampleRec "abc123".data false).1.alertCreated = none ∧
    (handle_duplicate sampleDB sampleRec "abc123".data false).1.errorCaught = true :=
  ⟨rfl, rfl, rfl⟩

/-- C7 (amended): when the DuplicateAlert write fails during a detection,
the nested transaction is rolled back (store unchanged, no alert row) and
the failure is not silently treated as success — the outer handler runs,
logging the error and notifying admins — but the error is caught inside
handle_duplicate itself, which returns normally to the message-processing
caller instead of propagating a typed error result. -/
theorem alert_write_failure_caught_internally
    (db : DB) (existing : IdentifierRecord) (identifier : List Char) :
    handle_duplicate db existing identifier false =
      ({ dbAfter := db, alertCreated := none, errorCaught := true }, Except.ok ()) := rfl

/-! ### Type independence of the duplicate decision -/

/-- The projection of the store that the duplicate lookup can see:
the identifier string and the is_duplicate flag of every record. -/
def projActive (db : DB) : List (List Char × Bool) :=
  db.records.map (fun r => (r.identifier, r.is_duplicate))

/-- The new-versus-duplicate decision of handle_message for one candidate:
whether an active record with the exact candidate string exists. -/
def dupDecision (db : DB) (c : List Char) : Bool := (find_active db c).isSome

theorem find?_isSome_eq_any {α : Type} (p : α → Bool) (l : List α) :
    (l.find? p).isSome = l.any p := by
  induction l with
  | nil => rfl
  | cons a l ih => by_cases h : p a <;> simp [List.find?_cons, h, ih]

/-- C8: the duplicate decision depends only on exact, case-sensitive string
equality with the stored active identifiers — it is characterised by an
existence check over the (identifier, is_duplicate) projection of the
store, so two stores that agree on that projection, whatever their
identifier_type values, give the same decision for every candidate, and
the decision for a fixed candidate and store is a fixed Boolean. -/
theorem duplicate_decision_type_independent :
    (∀ (db : DB) (c : List Char),
        dupDecision db c = db.records.any (fun r => r.identifier == c && !r.is_duplicate)) ∧
    (∀ (db1 db2 : DB) (c : List Char), projActive db1 = projActive db2 →
        dupDecision db1 c = dupDecision db2 c) := by
  have hchar : ∀ (db : DB) (c : List Char),
      dupDecision db c = (projActive db).any (fun q => q.1 == c && !q.2) := by
    intro db c
    rw [dupDecision, find_active, find?_isSome_eq_any, projActive]
    induction db.records with
    | nil => rfl
    | cons r l ih => simp only [List.any_cons, List.map_cons, ih]
  refine ⟨?_, ?_⟩
  · intro db c
    rw [dupDecision, find_active, find?_isSome_eq_any]
  · intro db1 db2 c h
    rw [hchar, hchar, h]

/-- A copy of sampleRec that differs only in the classification tag. -/
def sampleRecB : IdentifierRecord := { sampleRec with identifier_type := .custom }

/-- A copy of sampleDB holding sampleRecB instead of sampleRec. -/
def sampleDBB : DB := { sampleDB with records := [sampleRecB] }

/-- Witness for the C8 theorem: two stores differing only in the
identifier_type of their record give the same duplicate decision. -/
theorem duplicate_decision_type_independent_witness :
    dupDecision sampleDB "abc123".data = dupDecision sampleDBB "abc123".data :=
  duplicate_decision_type_independent.2 sampleDB sampleDBB "abc123".data rfl

/-! ### The all-digit classification rules -/

/-- C5: for an input whose whitespace-stripped form is non-empty, consists
only of digits and contains no at-sign, the classifier returns phone for
length 8 to 15, account_number for 16 to 20, large_number above 20, and
numeric otherwise (at most 7 digits). -/
theorem digit_length_classification (s : List Char)
    (hne : (cleanOf s).isEmpty = false)
    (hd : (cleanOf s).all pyIsDigit = true)
    (hat : '@' ∉ cleanOf s) :
    determine_identifier_type s =
      (if 8 ≤ (cleanOf s).length ∧ (cleanOf s).length ≤ 15 then .phone
       else if 16 ≤ (cleanOf s).length ∧ (cleanOf s).length ≤ 20 then .account_number
       else if 20 < (cleanOf s).length then .large_number
       else .numeric) := by
  have hdig : pyIsDigitStr (cleanOf s) = true := by
    rw [pyIsDigitStr, hne, hd]
    rfl
  have hcont : (cleanOf s).contains '@' = false := by
    simpa using hat
  have hemail : emailCond (cleanOf s) = false := by
    rw [emailCond, hcont]
    rfl
  simp only [determine_identifier_type, hne, hemail, hdig]
  rfl

/-- Witness for the C5 theorem: an 11-digit string is classified phone. -/
theorem digit_length_classification_witness :
    determine_identifier_type "98412345670".data = IdType.phone := by
  have h := digit_length_classification "98412345670".data rfl rfl (by decide)
  rw [h]
  rfl

/-! ### Helper lemmas for the admin-id configuration -/

theorem mem_dropWhile_of_mem {c : Char} (h : pyIsSpace c = false)
    (cs : List Char) (hm : c ∈ cs) : c ∈ cs.dropWhile pyIsSpace := by
  have hsplit : cs.takeWhile pyIsSpace ++ cs.dropWhile pyIsSpace = cs :=
    List.takeWhile_append_dropWhile _ _
  rw [← hsplit] at hm
  rcases List.mem_append.mp hm with h1 | h2
  · have := List.mem_takeWhile_imp h1
    rw [h] at this
    cases this
  · exact h2

theorem mem_pyStrip_of_mem {c : Char} (h : pyIsSpace c = false)
    {cs : List Char} (hm : c ∈ cs) : c ∈ pyStrip cs := by
  rw [pyStrip, List.mem_reverse]
  apply mem_dropWhile_of_mem h
  rw [List.mem_reverse]
  exact mem_dropWhile_of_mem h cs hm

theorem splitOnComma_no_comma (cs : List Char) (h : ',' ∉ cs) :
    splitOnComma cs = [cs] := by
  induction cs with
  | nil => rfl
  | cons c rest ih =>
      have hc : (c == ',') = false := by
        rw [beq_eq_false_iff_ne]
        intro hcc
        exact h (hcc ▸ List.mem_cons_self c rest)
      have hrest : splitOnComma rest = [rest] :=
        ih (fun hmem => h (List.mem_cons_of_mem c hmem))
      rw [splitOnComma, hc]
      simp only [Bool.false_eq_true, if_false, hrest]

/-- C9: for every value of the ADMIN_IDS configuration string the
admin_ids_list accessor returns a non-empty list of integers, and when no
comma-separated entry strips to a digit string it returns the default
list [1]. -/
theorem admin_ids_list_nonempty_default (s : List Char) :
    admin_ids_list s ≠ [] ∧
    ((splitOnComma s).all (fun x => !pyIsDigitStr (pyStrip x)) = true →
      admin_ids_list s = [1]) := by
  constructor
  · simp only [admin_ids_list]
    split
    · simp
    · split
      · simp
      · split
        · simp
        · next hl =>
            rw [List.isEmpty_iff] at hl
            simpa using hl
  · intro hall
    simp only [admin_ids_list]
    split
    · rfl
    · split
      · next hdig =>
          exfalso
          have hnc : ',' ∉ s := by
            intro hmem
            have h1 : ',' ∈ pyStrip s := mem_pyStrip_of_mem (by decide) hmem
            have h2 := ((Bool.and_eq_true _ _).mp hdig).2
            have h3 := (List.all_eq_true.mp h2) ',' h1
            cases h3
          have hsc : splitOnComma s = [s] := splitOnComma_no_comma s hnc
          rw [hsc] at hall
          have hcontr := (List.all_eq_true.mp hall) s (List.mem_cons_self s [])
          rw [hdig] at hcontr
          cases hcontr
      · split
        · rfl
        · next hl =>
            exfalso
            rw [List.isEmpty_iff] at hl
            obtain ⟨y, hy⟩ := List.exists_mem_of_ne_nil _ hl
            obtain ⟨x, hx, hfx⟩ := List.mem_filterMap.mp hy
            by_cases hdx : pyIsDigitStr (pyStrip x) = true
            · have hax := (List.all_eq_true.mp hall) x hx
              rw [hdx] at hax
              cases hax
            · rw [if_neg hdx] at hfx
              cases hfx

/-! ### Helper lemmas for the extraction shape -/

theorem dedupFirst_go_head {α : Type} [DecidableEq α] :
    ∀ (l acc : List α), acc ≠ [] →
      (l.foldl (fun acc x => if x ∈ acc then acc else acc ++ [x]) acc).head? = acc.head? := by
  intro l
  induction l with
  | nil => intro acc h; rfl
  | cons x xs ih =>
      intro acc h
      simp only [List.foldl_cons]
      by_cases hx : x ∈ acc
      · rw [if_pos hx]
        exact ih acc h
      · rw [if_neg hx]
        have hne : acc ++ [x] ≠ [] := by
          intro hcontr
          exact h (List.append_eq_nil.mp hcontr).1
        rw [ih (acc ++ [x]) hne]
        cases acc with
        | nil => exact absurd rfl h
        | cons a l => rfl

theorem dedupFirst_go_nodup {α : Type} [DecidableEq α] :
    ∀ (l acc : List α), acc.Nodup →
      (l.foldl (fun acc x => if x ∈ acc then acc else acc ++ [x]) acc).Nodup := by
  intro l
  induction l with
  | nil => intro acc h; exact h
  | cons x xs ih =>
      intro acc h
      simp only [List.foldl_cons]
      by_cases hx : x ∈ acc
      · rw [if_pos hx]; exact ih acc h
      · rw [if_neg hx]
        refine ih (acc ++ [x]) ?_
        rw [List.nodup_append]
        refine ⟨h, List.nodup_singleton x, ?_⟩
        intro a ha hax
        rw [List.mem_singleton] at hax
        exact hx (hax ▸ ha)

theorem dedupFirst_go_mem {α : Type} [DecidableEq α] :
    ∀ (l acc : List α) (y : α),
      y ∈ l.foldl (fun acc x => if x ∈ acc then acc else acc ++ [x]) acc →
      y ∈ acc ∨ y ∈ l := by
  intro l
  induction l with
  | nil => intro acc y h; exact Or.inl h
  | cons x xs ih =>
      intro acc y h
      simp only [List.foldl_cons] at h
      by_cases hx : x ∈ acc
      · rw [if_pos hx] at h
        rcases ih acc y h with h1 | h2
        · exact Or.inl h1
        · exact Or.inr (List.mem_cons_of_mem x h2)
      · rw [if_neg hx] at h
        rcases ih (acc ++ [x]) y h with h1 | h2
        · rcases List.mem_append.mp h1 with h3 | h4
          · exact Or.inl h3
          · simp only [List.mem_singleton] at h4
            exact Or.inr (h4 ▸ List.mem_cons_self x xs)
        · exact Or.inr (List.mem_cons_of_mem x h2)

theorem dedupFirst_head {α : Type} [DecidableEq α] (h : α) (t : List α) :
    (dedupFirst (h :: t)).head? = some h := by
  rw [dedupFirst, List.foldl_cons]
  have : (if h ∈ ([] : List α) then ([] : List α) else [] ++ [h]) = [h] := by simp
  rw [this]
  exact dedupFirst_go_head t [h] (by simp)

theorem dedupFirst_nodup {α : Type} [DecidableEq α] (l : List α) :
    (dedupFirst l).Nodup :=
  dedupFirst_go_nodup l [] List.nodup_nil

theorem dedupFirst_mem {α : Type} [DecidableEq α] {l : List α} {y : α}
    (h : y ∈ dedupFirst l) : y ∈ l := by
  rcases dedupFirst_go_mem l [] y h with h1 | h2
  · cases h1
  · exact h2

/-- C10: extract_identifiers always returns a non-empty duplicate-free
list whose first element is the whole text with URLs removed and
surrounding whitespace stripped, and in which every element after the
first has length at least 6. -/
theorem extract_identifiers_shape (text : List Char) :
    extract_identifiers text ≠ [] ∧
    (extract_identifiers text).head? = some (pyStrip (remove_urls text)) ∧
    (extract_identifiers text).Nodup ∧
    (extract_identifiers text).tail.all (fun x => decide (6 ≤ x.length)) = true := by
  have hhead : (extract_identifiers text).head? = some (pyStrip (remove_urls text)) := by
    rw [extract_identifiers]
    exact dedupFirst_head _ _
  have hne : extract_identifiers text ≠ [] := by
    intro hnil
    rw [hnil] at hhead
    cases hhead
  have hnodup : (extract_identifiers text).Nodup := by
    rw [extract_identifiers]
    exact dedupFirst_nodup _
  refine ⟨hne, hhead, hnodup, ?_⟩
  rw [List.all_eq_true]
  intro x hx
  rw [decide_eq_true_eq]
  cases hres : extract_identifiers text with
  | nil => exact absurd hres hne
  | cons a l =>
      have ha : a = pyStrip (remove_urls text) := by
        rw [hres] at hhead
        exact Option.some.inj hhead
      rw [hres] at hx
      simp only [List.tail_cons] at hx
      have hxres : x ∈ extract_identifiers text := by
        rw [hres]
        exact List.mem_cons_of_mem a hx
      have hmem := dedupFirst_mem (by rw [extract_identifiers] at hxres; exact hxres)
      rcases List.mem_cons.mp hmem with h1 | h2
      · exfalso
        have hnd := hnodup
        rw [hres] at hnd
        have : a ∉ l := (List.nodup_cons.mp hnd).1
        rw [h1, ← ha] at hx
        exact this hx
      · obtain ⟨part, hpart, hsome⟩ := List.mem_filterMap.mp h2
        by_cases hlen : 6 ≤ (pyStrip part).length
        · simp only [hlen, if_pos] at hsome
          exact Option.some.inj hsome ▸ hlen
        · simp only [if_neg hlen] at hsome
          cases hsome

/-! ### Helper lemmas for the UUID rule -/

theorem pyLower_ne_dash_of_alpha {c : Char} (h : pyIsAlpha c = true) :
    pyLower c ≠ '-' := by
  rw [pyLower]
  split
  · next hu =>
      have h1 : 65 ≤ c.toNat ∧ c.toNat ≤ 90 := by
        simpa [pyIsUpper, Bool.and_eq_true, decide_eq_true_eq] using hu
      have hgen : ∀ n : Nat, 97 ≤ n → n ≤ 122 → Char.ofNat n ≠ '-' := by
        intro n hn1 hn2
        interval_cases n <;> decide
      exact hgen (c.toNat + 32) (by omega) (by omega)
  · intro heq
    rw [heq] at h
    exact absurd h (by decide)

theorem uuidMatch_dash_mem {cs : List Char} (h : uuidMatch cs = true) : '-' ∈ cs := by
  rw [uuidMatch] at h
  simp only [Bool.and_eq_true, decide_eq_true_eq, beq_iff_eq] at h
  have h36 : cs.length = 36 := h.1.1.1.1.1.1.1.1.1
  have hd : cs.getD 8 ' ' = '-' := h.1.1.1.1.1.1.1.2
  have h8 : 8 < cs.length := by omega
  rw [List.getD_eq_getElem cs ' ' h8] at hd
  exact hd ▸ List.getElem_mem h8

/-- C4 (counterexample): a string in canonical UUID layout that missed the
empty, email and all-digit rules but contains both an alphabetic and a
digit character is classified reference_code, not uuid. -/
theorem uuid_mixed_classified_reference_code :
    uuidMatch ((cleanOf "a1234567-89ab-cdef-0123-456789abcdef".data).map pyLower) = true ∧
    (cleanOf "a1234567-89ab-cdef-0123-456789abcdef".data).isEmpty = false ∧
    emailCond (cleanOf "a1234567-89ab-cdef-0123-456789abcdef".data) = false ∧
    pyIsDigitStr (cleanOf "a1234567-89ab-cdef-0123-456789abcdef".data) = false ∧
    determine_identifier_type "a1234567-89ab-cdef-0123-456789abcdef".data =
      IdType.reference_code :=
  ⟨rfl, rfl, rfl, rfl, rfl⟩

/-- C4 (amended): for an input matching the canonical UUID layout after
whitespace stripping that did not match an earlier rule (empty, email,
all-digits), classify returns uuid only when the string does not contain
both an alphabetic and a digit character; when it contains both, the
reference-code rule fires first and classify returns reference_code. -/
theorem uuid_rule_after_reference_code (s : List Char)
    (hemail : emailCond (cleanOf s) = false)
    (hdig : pyIsDigitStr (cleanOf s) = false)
    (huuid : uuidMatch ((cleanOf s).map pyLower) = true) :
    determine_identifier_type s =
      (if (cleanOf s).any pyIsAlpha && (cleanOf s).any pyIsDigit then
        IdType.reference_code else IdType.uuid) := by
  obtain ⟨c, hc, hlc⟩ := List.mem_map.mp (uuidMatch_dash_mem huuid)
  have hne : (cleanOf s).isEmpty = false := by
    cases hcl : cleanOf s with
    | nil => rw [hcl] at hc; cases hc
    | cons a l => rfl
  have halpha : pyIsAlphaStr (cleanOf s) = false := by
    by_contra hfa
    rw [Bool.not_eq_false] at hfa
    have hall : (cleanOf s).all pyIsAlpha = true := ((Bool.and_eq_true _ _).mp hfa).2
    have hca : pyIsAlpha c = true := List.all_eq_true.mp hall c hc
    exact pyLower_ne_dash_of_alpha hca hlc
  simp only [determine_identifier_type, hne, hemail, hdig, Bool.false_eq_true, if_false]
  by_cases hb : ((cleanOf s).any pyIsAlpha && (cleanOf s).any pyIsDigit) = true
  · have halnum : (cleanOf s).any pyIsAlnum = true := by
      obtain ⟨d, hd1, hd2⟩ := List.any_eq_true.mp ((Bool.and_eq_true _ _).mp hb).1
      refine List.any_eq_true.mpr ⟨d, hd1, ?_⟩
      rw [pyIsAlnum, hd2]
      rfl
    simp [halnum, hb]
  · rw [Bool.not_eq_true] at hb
    simp [hb, halpha, huuid]

/-- Witness for the amended C4 theorem: an all-digit-hex UUID layout (no
alphabetic character) is classified uuid. -/
theorem uuid_rule_after_reference_code_witness :
    determine_identifier_type "12345678-1234-1234-1234-123456789012".data = IdType.uuid := by
  have h := uuid_rule_after_reference_code "12345678-1234-1234-1234-123456789012".data rfl rfl rfl
  rw [h]
  rfl

/-! ### Concrete witnesses -/

/-- Witness for the C2 invariant: adding the same identifier twice (once
with surrounding whitespace) still leaves at most one active record. -/
theorem active_uniqueness_invariant_witness :
    activeCount (run [Op.add " abc123 ".data 7, Op.add "abc123".data 8]) "abc123".data ≤ 1 :=
  active_uniqueness_invariant [Op.add " abc123 ".data 7, Op.add "abc123".data 8] "abc123".data

/-- Witness for the C6 frame theorem at a concrete store and message that
does hit a duplicate. -/
theorem duplicate_detection_frame_witness :
    (handle_message sampleDB "abc123".data []).1.records = sampleDB.records :=
  (duplicate_detection_frame sampleDB "abc123".data []).1

/-- Witness for the C9 theorem at a concrete non-numeric setting. -/
theorem admin_ids_list_nonempty_default_witness :
    admin_ids_list "abc".data = [(1 : Int)] ∧ admin_ids_list "abc".data ≠ [] :=
  ⟨(admin_ids_list_nonempty_default "abc".data).2 (by decide),
   (admin_ids_list_nonempty_default "abc".data).1⟩

/-- Witness for the C10 shape theorem at a concrete message text. -/
theorem extract_identifiers_shape_witness :
    (extract_identifiers "hello world abc123".data).head? =
      some (pyStrip (remove_urls "hello world abc123".data)) ∧
    (extract_identifiers "hello world abc123".data).tail.all
      (fun x => decide (6 ≤ x.length)) = true :=
  ⟨(extract_identifiers_shape "hello world abc123".data).2.1,
   (extract_identifiers_shape "hello world abc123".data).2.2.2⟩

end AIVA

section ClassifierChecks

example : AIVA.determine_identifier_type "user@example.com".data = .email := rfl
example : AIVA.determine_identifier_type "98412345670".data = .phone := rfl
example : AIVA.determine_identifier_type "12345678901234567890".data = .account_number := rfl
example : AIVA.determine_identifier_type "abc123".data = .reference_code := rfl
example : AIVA.determine_identifier_type "".data = .unknown := rfl
example : AIVA.determine_identifier_type "a1234567-89ab-cdef-0123-456789abcdef".data = .reference_code := rfl
example : AIVA.determine_identifier_type "12345678-1234-1234-1234-123456789012".data = .uuid := rfl

end ClassifierChecks
